import Mathlib

/-!
Verification of `frontend.py` of the PDF-Chat-Web-App repository.

The file is a Streamlit script that re-runs top to bottom on every UI
interaction.  We embed one run of the script as a pure function from the
stored session state and the run's inputs (menu choice, uploaded file,
checkbox, chat input, and the outcomes of the calls into the two external
managers) to the new session state, the list of rendered outputs, and the
trace of manager-method calls.  The two managers (`EmbeddingsManager`,
`ChatbotManager`) are external collaborators: their behaviour enters the
model as environment-supplied outcomes (`Except` values standing for the
Python calls that either return or raise).
-/

namespace PDFChat

/-- An initialized `ChatbotManager` instance (opaque external object).
The `id` field only serves to distinguish distinct instances. -/
structure ChatbotManager where
  id : Nat
deriving DecidableEq, Repr

/-- One chat turn, as appended to `session_state['state']['messages']`:
a dict with exactly the keys `role` and `content`. -/
structure ChatMessage where
  role : String
  content : String
deriving DecidableEq, Repr

/-- `session_state['state']`, as initialized at lines 69-74 of
`frontend.py`: the three keys `temp_pdf_path`, `chatbot_manager`,
`messages`. -/
structure AppState where
  temp_pdf_path : Option String
  chatbot_manager : Option ChatbotManager
  messages : List ChatMessage
deriving DecidableEq, Repr

/-- The dict literal written into `session_state['state']` when the key is
absent (lines 70-74). -/
def initState : AppState :=
  { temp_pdf_path := none, chatbot_manager := none, messages := [] }

/-- Lines 69-74: `if 'state' not in session_state: session_state['state'] = ...`.
`none` models the key being absent (start of a session). -/
def ensureState : Option AppState → AppState
  | none => initState
  | some s => s

/-- The value returned by `st.file_uploader` when a file was uploaded. -/
structure UploadedFile where
  name : String
  size : Nat
  content : String
deriving DecidableEq, Repr

/-- A Python exception as caught by the handlers at lines 151-158:
the three named classes, or any other `Exception`. -/
inductive PyExc where
  | fileNotFound (msg : String)
  | valueError (msg : String)
  | connectionError (msg : String)
  | otherExc (msg : String)
deriving DecidableEq, Repr

/-- The text `st.error` receives for each handler (lines 151-158): the
exception itself (its message) for the three named classes, and the
f-string `"An unexpected error occurred: " + e` for a bare `Exception`. -/
def excErrorText : PyExc → String
  | PyExc.fileNotFound m => m
  | PyExc.valueError m => m
  | PyExc.connectionError m => m
  | PyExc.otherExc m => "An unexpected error occurred: " ++ m

/-- Environment for one pass through the `try` block at lines 141-149:
what each of the three external calls does on this run.
`embInit` is `initialize_embeddings_manager()`, `embCreate` is
`embeddings_manager.create_embeddings(path)` (returning the `result`
string), `botInit` is `initialize_chatbot_manager()`. -/
structure EmbedEnv where
  embInit : Except PyExc Unit
  embCreate : Except PyExc String
  botInit : Except PyExc ChatbotManager
deriving Repr

/-- What `chatbot_manager.get_response(user_input)` does on this run
(line 176): return an answer, or raise an `Exception` with message `msg`. -/
inductive ChatOutcome where
  | ok (answer : String)
  | raised (msg : String)
deriving DecidableEq, Repr

/-- A rendered UI element (one `st.*` display call). -/
inductive Output where
  | image (path : String)
  | markdown (text : String)
  | title (text : String)
  | header (text : String)
  | selectbox (label : String) (options : List String)
  | successMsg (text : String)
  | warningMsg (text : String)
  | errorMsg (text : String)
  | infoMsg (text : String)
  | chatMsg (role : String) (content : String)
  | pdfPreview (content : String)
  | fileWrite (path : String)
deriving DecidableEq, Repr

/-- A call into one of the two external managers' methods. -/
inductive ManagerCall where
  | createEmbeddings (path : String)
  | getResponse (question : String)
deriving DecidableEq, Repr

/-- The inputs of one run of the script. -/
structure ScriptInput where
  choice : String
  uploaded_file : Option UploadedFile
  create_embeddings : Bool
  user_input : Option String
  embedEnv : EmbedEnv
  chat_outcome : ChatOutcome
deriving Repr

/-- The result of one run: the session state left behind, the rendered
outputs in order, and the manager calls made, in order. -/
structure RunResult where
  state : AppState
  outputs : List Output
  calls : List ManagerCall
deriving Repr

/-- `display_pdf` (lines 22-31): base64-encodes the file and renders an
iframe via `st.markdown`.  The base64/iframe wrapping is abstracted; the
output records which content was displayed. -/
def display_pdf (file : UploadedFile) : Output :=
  Output.pdfPreview file.content

/-- The sidebar menu (line 88). -/
def menu : List String := ["🏠 Home", "🤖 Chatbot", "📧 Contact"]

/-- Sidebar rendering (lines 84-89). -/
def sidebarOutputs : List Output :=
  [Output.image "bot.png",
   Output.markdown "### 📚 Your Personal Document Assistant",
   Output.markdown "---",
   Output.selectbox "Navigate" menu]

/-- Home page rendering (lines 92-104). -/
def homeOutputs : List Output :=
  [Output.title "📄 Document ChatBot",
   Output.markdown "Welcome to **Document ChatBot**! 🚀 ... Enhance your document management experience with Document Bot! 😊"]

/-- Contact page rendering (lines 185-192). -/
def contactOutputs : List Output :=
  [Output.title "📬 Contact Us",
   Output.markdown "Would love to hear from you! ... **Email:** developer@example.com ✉️"]

/-- Footer rendering (lines 194-196), executed on every run. -/
def footerOutputs : List Output :=
  [Output.markdown "---",
   Output.markdown "...Document ChatBot by Cartel. 🛡️"]

/-- Column 1 (lines 115-131): the file uploader.  When a file is present
it is previewed, written to the fixed path `"doc.pdf"`, and
`session_state['state']['temp_pdf_path']` is set to that path. -/
def uploadColumn (s : AppState) (uploaded_file : Option UploadedFile) : RunResult :=
  match uploaded_file with
  | none => ⟨s, [Output.header "📂 Upload Document"], []⟩
  | some file =>
      ⟨{ s with temp_pdf_path := some "doc.pdf" },
       [Output.header "📂 Upload Document",
        Output.successMsg "📄 File Uploaded Successfully!",
        Output.markdown ("**Filename:** " ++ file.name),
        Output.markdown ("**File Size:** " ++ toString file.size ++ " bytes"),
        Output.markdown "### 📖 PDF Preview",
        display_pdf file,
        Output.fileWrite "doc.pdf"],
       []⟩

/-- The `try`/`except` block at lines 141-158, entered with the non-empty
`path` read from `temp_pdf_path`.  Order of effects follows the source:
initialize the embeddings manager, call `create_embeddings(path)`, show
`st.success(result)`, then initialize `chatbot_manager` only if it is
currently falsy; any raise jumps to the matching handler, which renders
`st.error`. -/
def tryCreateEmbeddings (s : AppState) (path : String) (env : EmbedEnv) : RunResult :=
  match env.embInit with
  | Except.error e => ⟨s, [Output.errorMsg (excErrorText e)], []⟩
  | Except.ok _ =>
    match env.embCreate with
    | Except.error e =>
        ⟨s, [Output.errorMsg (excErrorText e)], [ManagerCall.createEmbeddings path]⟩
    | Except.ok result =>
        if s.chatbot_manager.isNone then
          match env.botInit with
          | Except.error e =>
              ⟨s, [Output.successMsg result, Output.errorMsg (excErrorText e)],
               [ManagerCall.createEmbeddings path]⟩
          | Except.ok m =>
              ⟨{ s with chatbot_manager := some m },
               [Output.successMsg result],
               [ManagerCall.createEmbeddings path]⟩
        else
          ⟨s, [Output.successMsg result], [ManagerCall.createEmbeddings path]⟩

/-- Column 2 (lines 134-158): the "Create Embeddings" checkbox.  When
checked, a falsy `temp_pdf_path` (Python: `None` or the empty string)
renders a warning; otherwise the `try` block runs. -/
def embeddingsColumn (s : AppState) (create_embeddings : Bool) (env : EmbedEnv) : RunResult :=
  let hdr := Output.header "🧠 Embeddings"
  if create_embeddings then
    match s.temp_pdf_path with
    | none => ⟨s, [hdr, Output.warningMsg "⚠️ Please upload a PDF first."], []⟩
    | some p =>
        if p.isEmpty then
          ⟨s, [hdr, Output.warningMsg "⚠️ Please upload a PDF first."], []⟩
        else
          let t := tryCreateEmbeddings s p env
          ⟨t.state, hdr :: t.outputs, t.calls⟩
  else ⟨s, [hdr], []⟩

/-- The `answer` local variable after the `try`/`except` at lines 175-179:
the value `get_response` returned, or the f-string built from the caught
exception. -/
def answerText : ChatOutcome → String
  | ChatOutcome.ok a => a
  | ChatOutcome.raised m =>
      "⚠️ An error occurred while processing your request: " ++ m

/-- Column 3 (lines 161-182): the chat interface.  A falsy
`chatbot_manager` renders an info message; otherwise the history is
rendered and a truthy `chat_input` (Python: a non-empty string) triggers
one send: render and append the user turn, call `get_response` inside
`try`/`except Exception` (a raise turns into the error-text answer),
render and append the assistant turn. -/
def chatColumn (s : AppState) (user_input : Option String) (outcome : ChatOutcome) : RunResult :=
  let hdr := Output.header "💬 Chat with Document"
  if s.chatbot_manager.isNone then
    ⟨s, [hdr, Output.infoMsg "🤖 Please upload a PDF and create embeddings to start chatting."], []⟩
  else
    let history := s.messages.map (fun m => Output.chatMsg m.role m.content)
    match user_input with
    | none => ⟨s, hdr :: history, []⟩
    | some q =>
        if q.isEmpty then ⟨s, hdr :: history, []⟩
        else
          let answer := answerText outcome
          ⟨{ s with messages :=
               s.messages ++ [⟨"user", q⟩, ⟨"assistant", answer⟩] },
           hdr :: history ++ [Output.chatMsg "user" q, Output.chatMsg "assistant" answer],
           [ManagerCall.getResponse q]⟩

/-- The Chatbot page (lines 107-182): title, then the three columns run
left to right over the shared session state. -/
def chatbotPage (s : AppState) (inp : ScriptInput) : RunResult :=
  let top := [Output.title "🤖 Your Favourite Information Extractor (Llama 3.2 RAG 🦙)",
              Output.markdown "---"]
  let r1 := uploadColumn s inp.uploaded_file
  let r2 := embeddingsColumn r1.state inp.create_embeddings inp.embedEnv
  let r3 := chatColumn r2.state inp.user_input inp.chat_outcome
  ⟨r3.state, top ++ r1.outputs ++ r2.outputs ++ r3.outputs, r1.calls ++ r2.calls ++ r3.calls⟩

/-- The navigation states of the `if`/`elif` chain (lines 92, 107, 185). -/
inductive Page where
  | home
  | chatbot
  | contact
deriving DecidableEq, Repr

/-- Which page branch a menu choice selects: the `if choice == ...` /
`elif` chain; no branch runs for a string outside the chain. -/
def selectPage (choice : String) : Option Page :=
  if choice = "🏠 Home" then some Page.home
  else if choice = "🤖 Chatbot" then some Page.chatbot
  else if choice = "📧 Contact" then some Page.contact
  else none

/-- One full run of `frontend.py`: session-state initialization (lines
69-74), sidebar, the selected page branch, footer. -/
def runScript (stored : Option AppState) (inp : ScriptInput) : RunResult :=
  let s0 := ensureState stored
  if inp.choice = "🏠 Home" then
    ⟨s0, sidebarOutputs ++ homeOutputs ++ footerOutputs, []⟩
  else if inp.choice = "🤖 Chatbot" then
    let r := chatbotPage s0 inp
    ⟨r.state, sidebarOutputs ++ r.outputs ++ footerOutputs, r.calls⟩
  else if inp.choice = "📧 Contact" then
    ⟨s0, sidebarOutputs ++ contactOutputs ++ footerOutputs, []⟩
  else
    ⟨s0, sidebarOutputs ++ footerOutputs, []⟩

/-- The session state as the embeddings column (column 2) reads it: the
stored state after column 1 (the uploader) has run. -/
def stateAfterUpload (stored : Option AppState) (inp : ScriptInput) : AppState :=
  (uploadColumn (ensureState stored) inp.uploaded_file).state

/-- The session state as the chat column (column 3) reads it: the state
after columns 1 and 2 have run. -/
def stateAfterEmbeddings (stored : Option AppState) (inp : ScriptInput) : AppState :=
  (embeddingsColumn (stateAfterUpload stored inp) inp.create_embeddings inp.embedEnv).state

/-! ## Helper lemmas -/

lemma uploadColumn_calls (s : AppState) (u : Option UploadedFile) :
    (uploadColumn s u).calls = [] := by
  cases u <;> rfl

lemma uploadColumn_manager (s : AppState) (u : Option UploadedFile) :
    (uploadColumn s u).state.chatbot_manager = s.chatbot_manager := by
  cases u <;> rfl

lemma uploadColumn_messages (s : AppState) (u : Option UploadedFile) :
    (uploadColumn s u).state.messages = s.messages := by
  cases u <;> rfl

lemma uploadColumn_path (s : AppState) (u : Option UploadedFile) :
    (uploadColumn s u).state.temp_pdf_path = s.temp_pdf_path ∨
      (uploadColumn s u).state.temp_pdf_path = some "doc.pdf" := by
  cases u
  · exact Or.inl rfl
  · exact Or.inr rfl

lemma tryCE_path (s : AppState) (path : String) (env : EmbedEnv) :
    (tryCreateEmbeddings s path env).state.temp_pdf_path = s.temp_pdf_path := by
  unfold tryCreateEmbeddings
  split
  · rfl
  · split
    · rfl
    · split
      · split <;> rfl
      · rfl

lemma tryCE_messages (s : AppState) (path : String) (env : EmbedEnv) :
    (tryCreateEmbeddings s path env).state.messages = s.messages := by
  unfold tryCreateEmbeddings
  split
  · rfl
  · split
    · rfl
    · split
      · split <;> rfl
      · rfl

lemma tryCE_calls (s : AppState) (path : String) (env : EmbedEnv) (c : ManagerCall)
    (h : c ∈ (tryCreateEmbeddings s path env).calls) :
    c = ManagerCall.createEmbeddings path := by
  unfold tryCreateEmbeddings at h
  split at h
  · simp at h
  · split at h
    · simpa using h
    · split at h
      · split at h <;> simpa using h
      · simpa using h

lemma tryCE_manager_mono (s : AppState) (path : String) (env : EmbedEnv)
    (m : ChatbotManager) (h : s.chatbot_manager = some m) :
    (tryCreateEmbeddings s path env).state.chatbot_manager = some m := by
  unfold tryCreateEmbeddings
  split
  · exact h
  · split
    · exact h
    · split
      · rename_i hnone
        rw [h] at hnone
        simp at hnone
      · exact h

lemma tryCE_manager_new (s : AppState) (path : String) (env : EmbedEnv)
    (m : ChatbotManager) (h0 : s.chatbot_manager = none)
    (h : (tryCreateEmbeddings s path env).state.chatbot_manager = some m) :
    (∃ result, env.embCreate = Except.ok result) ∧ env.botInit = Except.ok m ∧
      ManagerCall.createEmbeddings path ∈ (tryCreateEmbeddings s path env).calls := by
  unfold tryCreateEmbeddings at h ⊢
  split at h
  · rw [h0] at h; simp at h
  · rename_i hInit
    split at h
    · rw [h0] at h; simp at h
    · rename_i result hCreate
      split at h
      · split at h
        · rw [h0] at h; simp at h
        · rename_i m' hBot
          simp at h
          subst h
          exact ⟨⟨result, hCreate⟩, hBot, by split <;> simp⟩
      · rename_i hsome
        rw [h0] at hsome
        simp at hsome

lemma tryCE_success (s : AppState) (path : String) (env : EmbedEnv) (result : String)
    (hInit : env.embInit = Except.ok ()) (hr : env.embCreate = Except.ok result) :
    Output.successMsg result ∈ (tryCreateEmbeddings s path env).outputs := by
  unfold tryCreateEmbeddings
  simp only [hInit, hr]
  split
  · split <;> simp
  · simp

lemma tryCE_calls_embInit (s : AppState) (path : String) (env : EmbedEnv)
    (h : (tryCreateEmbeddings s path env).calls ≠ []) :
    env.embInit = Except.ok () := by
  unfold tryCreateEmbeddings at h
  split at h
  · simp at h
  · rename_i u heq
    cases u
    exact heq

lemma embCol_path (s : AppState) (b : Bool) (env : EmbedEnv) :
    (embeddingsColumn s b env).state.temp_pdf_path = s.temp_pdf_path := by
  simp only [embeddingsColumn]
  split
  · split
    · rfl
    · split
      · rfl
      · exact tryCE_path ..
  · rfl

lemma embCol_messages (s : AppState) (b : Bool) (env : EmbedEnv) :
    (embeddingsColumn s b env).state.messages = s.messages := by
  simp only [embeddingsColumn]
  split
  · split
    · rfl
    · split
      · rfl
      · exact tryCE_messages ..
  · rfl

lemma embCol_manager_mono (s : AppState) (b : Bool) (env : EmbedEnv)
    (m : ChatbotManager) (h : s.chatbot_manager = some m) :
    (embeddingsColumn s b env).state.chatbot_manager = some m := by
  simp only [embeddingsColumn]
  split
  · split
    · exact h
    · split
      · exact h
      · exact tryCE_manager_mono _ _ _ _ h
  · exact h

lemma embCol_calls_mem (s : AppState) (b : Bool) (env : EmbedEnv) (c : ManagerCall)
    (h : c ∈ (embeddingsColumn s b env).calls) :
    ∃ p, c = ManagerCall.createEmbeddings p ∧ s.temp_pdf_path = some p := by
  simp only [embeddingsColumn] at h
  split at h
  · split at h
    · simp at h
    · rename_i p hp
      split at h
      · simp at h
      · exact ⟨p, tryCE_calls _ _ _ _ h, hp⟩
  · simp at h

lemma embCol_manager_new (s : AppState) (b : Bool) (env : EmbedEnv) (m : ChatbotManager)
    (h0 : s.chatbot_manager = none)
    (h : (embeddingsColumn s b env).state.chatbot_manager = some m) :
    ∃ p, s.temp_pdf_path = some p ∧ (∃ result, env.embCreate = Except.ok result) ∧
      env.botInit = Except.ok m ∧
      ManagerCall.createEmbeddings p ∈ (embeddingsColumn s b env).calls := by
  cases b with
  | false =>
      simp only [embeddingsColumn, if_neg] at h
      simp only [Bool.false_eq_true, if_false] at h
      rw [h0] at h
      exact absurd h (by simp)
  | true =>
      rcases hp : s.temp_pdf_path with _ | p
      · simp only [embeddingsColumn, hp, if_true] at h
        rw [h0] at h
        exact absurd h (by simp)
      · by_cases hq : p.isEmpty
        · simp only [embeddingsColumn, hp, hq, if_true] at h
          rw [h0] at h
          exact absurd h (by simp)
        · have h' : (tryCreateEmbeddings s p env).state.chatbot_manager = some m := by
            simpa [embeddingsColumn, hp, hq] using h
          obtain ⟨⟨result, hr⟩, hb, hc⟩ := tryCE_manager_new s p env m h0 h'
          refine ⟨p, rfl, ⟨result, hr⟩, hb, ?_⟩
          simpa [embeddingsColumn, hp, hq] using hc

lemma embCol_success (s : AppState) (b : Bool) (env : EmbedEnv) (p result : String)
    (hc : ManagerCall.createEmbeddings p ∈ (embeddingsColumn s b env).calls)
    (hr : env.embCreate = Except.ok result) :
    Output.successMsg result ∈ (embeddingsColumn s b env).outputs := by
  cases b with
  | false => simp [embeddingsColumn] at hc
  | true =>
      rcases hp : s.temp_pdf_path with _ | p'
      · simp [embeddingsColumn, hp] at hc
      · by_cases hq : p'.isEmpty
        · simp [embeddingsColumn, hp, hq] at hc
        · have hc' : ManagerCall.createEmbeddings p ∈ (tryCreateEmbeddings s p' env).calls := by
            simpa [embeddingsColumn, hp, hq] using hc
          have hInit := tryCE_calls_embInit s p' env (List.ne_nil_of_mem hc')
          have hmem := tryCE_success s p' env result hInit hr
          have hout : (embeddingsColumn s true env).outputs =
              Output.header "🧠 Embeddings" :: (tryCreateEmbeddings s p' env).outputs := by
            simp [embeddingsColumn, hp, hq]
          rw [hout]
          exact List.mem_cons_of_mem _ hmem

lemma embCol_warning (s : AppState) (env : EmbedEnv)
    (hp : s.temp_pdf_path = none) :
    Output.warningMsg "⚠️ Please upload a PDF first." ∈ (embeddingsColumn s true env).outputs ∧
      (embeddingsColumn s true env).calls = [] := by
  simp [embeddingsColumn, hp]

lemma chatCol_path (s : AppState) (ui : Option String) (oc : ChatOutcome) :
    (chatColumn s ui oc).state.temp_pdf_path = s.temp_pdf_path := by
  simp only [chatColumn]
  split
  · rfl
  · split
    · rfl
    · split
      · rfl
      · rfl

lemma chatCol_manager (s : AppState) (ui : Option String) (oc : ChatOutcome) :
    (chatColumn s ui oc).state.chatbot_manager = s.chatbot_manager := by
  simp only [chatColumn]
  split
  · rfl
  · split
    · rfl
    · split
      · rfl
      · rfl

lemma chatCol_calls_mem (s : AppState) (ui : Option String) (oc : ChatOutcome)
    (c : ManagerCall) (h : c ∈ (chatColumn s ui oc).calls) :
    ∃ q, c = ManagerCall.getResponse q ∧ ui = some q ∧ s.chatbot_manager ≠ none ∧
      q.isEmpty = false := by
  by_cases hm : s.chatbot_manager = none
  · simp [chatColumn, hm] at h
  · rcases ui with _ | q
    · simp [chatColumn, Option.isNone_iff_eq_none, hm] at h
    · by_cases hq : q.isEmpty
      · simp [chatColumn, Option.isNone_iff_eq_none, hm, hq] at h
      · simp [chatColumn, Option.isNone_iff_eq_none, hm, hq] at h
        exact ⟨q, h, rfl, hm, by simpa using hq⟩

lemma chatCol_info (s : AppState) (ui : Option String) (oc : ChatOutcome)
    (hm : s.chatbot_manager = none) :
    (chatColumn s ui oc).state = s ∧
      Output.infoMsg "🤖 Please upload a PDF and create embeddings to start chatting." ∈
        (chatColumn s ui oc).outputs ∧
      (chatColumn s ui oc).calls = [] := by
  simp [chatColumn, hm]

lemma chatCol_send (s : AppState) (q : String) (oc : ChatOutcome)
    (hm : s.chatbot_manager ≠ none) (hq : q.isEmpty = false) :
    (chatColumn s (some q) oc).state.messages =
        s.messages ++ [⟨"user", q⟩, ⟨"assistant", answerText oc⟩] ∧
      ManagerCall.getResponse q ∈ (chatColumn s (some q) oc).calls ∧
      Output.chatMsg "user" q ∈ (chatColumn s (some q) oc).outputs ∧
      Output.chatMsg "assistant" (answerText oc) ∈ (chatColumn s (some q) oc).outputs := by
  simp [chatColumn, hm, hq, Option.isNone_iff_eq_none]

lemma chatCol_messages_append (s : AppState) (ui : Option String) (oc : ChatOutcome) :
    ∃ tail, (chatColumn s ui oc).state.messages = s.messages ++ tail ∧
      (tail = [] ∨ ∃ q, tail = [⟨"user", q⟩, ⟨"assistant", answerText oc⟩]) := by
  by_cases hm : s.chatbot_manager = none
  · exact ⟨[], by simp [chatColumn, hm], Or.inl rfl⟩
  · rcases ui with _ | q
    · exact ⟨[], by simp [chatColumn, Option.isNone_iff_eq_none, hm], Or.inl rfl⟩
    · by_cases hq : q.isEmpty
      · exact ⟨[], by simp [chatColumn, Option.isNone_iff_eq_none, hm, hq], Or.inl rfl⟩
      · refine ⟨[⟨"user", q⟩, ⟨"assistant", answerText oc⟩], ?_, Or.inr ⟨q, rfl⟩⟩
        simp [chatColumn, Option.isNone_iff_eq_none, hm, hq]

lemma chatbotPage_state (s : AppState) (inp : ScriptInput) :
    (chatbotPage s inp).state =
      (chatColumn (embeddingsColumn (uploadColumn s inp.uploaded_file).state
          inp.create_embeddings inp.embedEnv).state inp.user_input inp.chat_outcome).state := rfl

lemma chatbotPage_calls (s : AppState) (inp : ScriptInput) :
    (chatbotPage s inp).calls =
      (uploadColumn s inp.uploaded_file).calls ++
        (embeddingsColumn (uploadColumn s inp.uploaded_file).state
          inp.create_embeddings inp.embedEnv).calls ++
        (chatColumn (embeddingsColumn (uploadColumn s inp.uploaded_file).state
          inp.create_embeddings inp.embedEnv).state inp.user_input inp.chat_outcome).calls := rfl

lemma runScript_home (stored : Option AppState) (inp : ScriptInput)
    (h : inp.choice = "🏠 Home") :
    runScript stored inp =
      ⟨ensureState stored, sidebarOutputs ++ homeOutputs ++ footerOutputs, []⟩ := by
  unfold runScript
  rw [h]
  rfl

lemma runScript_contact (stored : Option AppState) (inp : ScriptInput)
    (h : inp.choice = "📧 Contact") :
    runScript stored inp =
      ⟨ensureState stored, sidebarOutputs ++ contactOutputs ++ footerOutputs, []⟩ := by
  unfold runScript
  rw [h]
  rfl

lemma runScript_chatbot (stored : Option AppState) (inp : ScriptInput)
    (h : inp.choice = "🤖 Chatbot") :
    runScript stored inp =
      ⟨(chatbotPage (ensureState stored) inp).state,
       sidebarOutputs ++ (chatbotPage (ensureState stored) inp).outputs ++ footerOutputs,
       (chatbotPage (ensureState stored) inp).calls⟩ := by
  unfold runScript
  rw [h]
  rfl

lemma runScript_other (stored : Option AppState) (inp : ScriptInput)
    (h1 : inp.choice ≠ "🏠 Home") (h2 : inp.choice ≠ "🤖 Chatbot")
    (h3 : inp.choice ≠ "📧 Contact") :
    runScript stored inp = ⟨ensureState stored, sidebarOutputs ++ footerOutputs, []⟩ := by
  unfold runScript
  rw [if_neg h1, if_neg h2, if_neg h3]

lemma runScript_not_chatbot (stored : Option AppState) (inp : ScriptInput)
    (h : inp.choice ≠ "🤖 Chatbot") :
    (runScript stored inp).state = ensureState stored ∧ (runScript stored inp).calls = [] := by
  by_cases h1 : inp.choice = "🏠 Home"
  · rw [runScript_home stored inp h1]
    exact ⟨rfl, rfl⟩
  · by_cases h3 : inp.choice = "📧 Contact"
    · rw [runScript_contact stored inp h3]
      exact ⟨rfl, rfl⟩
    · rw [runScript_other stored inp h1 h h3]
      exact ⟨rfl, rfl⟩

lemma runScript_state_chatbot (stored : Option AppState) (inp : ScriptInput)
    (h : inp.choice = "🤖 Chatbot") :
    (runScript stored inp).state =
      (chatColumn (stateAfterEmbeddings stored inp) inp.user_input inp.chat_outcome).state := by
  rw [runScript_chatbot stored inp h]
  rfl

lemma runScript_calls_chatbot (stored : Option AppState) (inp : ScriptInput)
    (h : inp.choice = "🤖 Chatbot") :
    (runScript stored inp).calls =
      (embeddingsColumn (stateAfterUpload stored inp) inp.create_embeddings inp.embedEnv).calls ++
        (chatColumn (stateAfterEmbeddings stored inp) inp.user_input inp.chat_outcome).calls := by
  rw [runScript_chatbot stored inp h]
  show (chatbotPage (ensureState stored) inp).calls = _
  rw [chatbotPage_calls, uploadColumn_calls]
  rfl

lemma runScript_outputs_chatbot (stored : Option AppState) (inp : ScriptInput)
    (h : inp.choice = "🤖 Chatbot") :
    (runScript stored inp).outputs =
      sidebarOutputs ++ (chatbotPage (ensureState stored) inp).outputs ++ footerOutputs := by
  rw [runScript_chatbot stored inp h]

lemma mem_outputs_of_embCol (stored : Option AppState) (inp : ScriptInput)
    (h : inp.choice = "🤖 Chatbot") (x : Output)
    (hx : x ∈ (embeddingsColumn (stateAfterUpload stored inp)
        inp.create_embeddings inp.embedEnv).outputs) :
    x ∈ (runScript stored inp).outputs := by
  rw [runScript_outputs_chatbot stored inp h]
  have hpage : (chatbotPage (ensureState stored) inp).outputs =
      [Output.title "🤖 Your Favourite Information Extractor (Llama 3.2 RAG 🦙)",
       Output.markdown "---"] ++
        (uploadColumn (ensureState stored) inp.uploaded_file).outputs ++
        (embeddingsColumn (stateAfterUpload stored inp)
          inp.create_embeddings inp.embedEnv).outputs ++
        (chatColumn (stateAfterEmbeddings stored inp)
          inp.user_input inp.chat_outcome).outputs := rfl
  rw [hpage]
  simp only [List.mem_append]
  tauto

lemma mem_outputs_of_chatCol (stored : Option AppState) (inp : ScriptInput)
    (h : inp.choice = "🤖 Chatbot") (x : Output)
    (hx : x ∈ (chatColumn (stateAfterEmbeddings stored inp)
        inp.user_input inp.chat_outcome).outputs) :
    x ∈ (runScript stored inp).outputs := by
  rw [runScript_outputs_chatbot stored inp h]
  have hpage : (chatbotPage (ensureState stored) inp).outputs =
      [Output.title "🤖 Your Favourite Information Extractor (Llama 3.2 RAG 🦙)",
       Output.markdown "---"] ++
        (uploadColumn (ensureState stored) inp.uploaded_file).outputs ++
        (embeddingsColumn (stateAfterUpload stored inp)
          inp.create_embeddings inp.embedEnv).outputs ++
        (chatColumn (stateAfterEmbeddings stored inp)
          inp.user_input inp.chat_outcome).outputs := rfl
  rw [hpage]
  simp only [List.mem_append]
  tauto

lemma stateAfterEmbeddings_messages (stored : Option AppState) (inp : ScriptInput) :
    (stateAfterEmbeddings stored inp).messages = (ensureState stored).messages := by
  unfold stateAfterEmbeddings stateAfterUpload
  rw [embCol_messages, uploadColumn_messages]

lemma stateAfterUpload_manager (stored : Option AppState) (inp : ScriptInput) :
    (stateAfterUpload stored inp).chatbot_manager = (ensureState stored).chatbot_manager := by
  unfold stateAfterUpload
  rw [uploadColumn_manager]

/-! ## Sample concrete inputs, used by the witness theorems -/

/-- A concrete uploaded file. -/
def sampleFile : UploadedFile := ⟨"paper.pdf", 4, "PDFDATA"⟩

/-- An environment in which all three external calls succeed. -/
def sampleEnvOk : EmbedEnv :=
  ⟨Except.ok (), Except.ok "Embeddings created!", Except.ok ⟨0⟩⟩

/-- A run on the Chatbot page: upload, create embeddings, send a chat
message, with every external call succeeding. -/
def sampleInput : ScriptInput :=
  ⟨"🤖 Chatbot", some sampleFile, true, some "What is this about?", sampleEnvOk,
   ChatOutcome.ok "It describes a RAG pipeline."⟩

/-- A stored session state in which a chatbot manager already exists. -/
def sampleStoredState : AppState := ⟨some "doc.pdf", some ⟨7⟩, []⟩

/-! ## Claim theorems -/

/-- C4: at session start the session-scoped state is created empty —
`temp_pdf_path` is `none`, `chatbot_manager` is `none`, `messages` is the
empty list — and this initialization happens only when no `state` key
exists yet: an existing state is left untouched. -/
theorem c4_session_state_initialized_empty :
    ensureState none = initState ∧
      initState.temp_pdf_path = none ∧
      initState.chatbot_manager = none ∧
      initState.messages = [] ∧
      ∀ s : AppState, ensureState (some s) = s :=
  ⟨rfl, rfl, rfl, rfl, fun _ => rfl⟩

/-- C7: the page controller has exactly the three navigation states Home,
Chatbot and Contact, selected from the fixed three-element menu; for every
menu selection exactly one page branch is selected, and the rendered
output of `runScript` is the one branch the selection picks. -/
theorem c7_three_navigation_states :
    menu = ["🏠 Home", "🤖 Chatbot", "📧 Contact"] ∧
      menu.Nodup ∧
      selectPage "🏠 Home" = some Page.home ∧
      selectPage "🤖 Chatbot" = some Page.chatbot ∧
      selectPage "📧 Contact" = some Page.contact ∧
      (∀ c ∈ menu, ∃! pg : Page, selectPage c = some pg) ∧
      (∀ stored inp, inp.choice = "🏠 Home" →
        (runScript stored inp).outputs = sidebarOutputs ++ homeOutputs ++ footerOutputs) ∧
      (∀ stored inp, inp.choice = "🤖 Chatbot" →
        (runScript stored inp).outputs =
          sidebarOutputs ++ (chatbotPage (ensureState stored) inp).outputs ++ footerOutputs) ∧
      (∀ stored inp, inp.choice = "📧 Contact" →
        (runScript stored inp).outputs = sidebarOutputs ++ contactOutputs ++ footerOutputs) := by
  refine ⟨rfl, by decide, rfl, rfl, rfl, ?_, ?_, ?_, ?_⟩
  · intro c hc
    simp only [menu, List.mem_cons, List.not_mem_nil, or_false] at hc
    rcases hc with rfl | rfl | rfl
    · exact ⟨Page.home, rfl, fun y hy => by simp [selectPage] at hy; exact hy.symm⟩
    · exact ⟨Page.chatbot, rfl, fun y hy => by simp [selectPage] at hy; exact hy.symm⟩
    · exact ⟨Page.contact, rfl, fun y hy => by simp [selectPage] at hy; exact hy.symm⟩
  · intro stored inp h
    rw [runScript_home stored inp h]
  · intro stored inp h
    rw [runScript_outputs_chatbot stored inp h]
  · intro stored inp h
    rw [runScript_contact stored inp h]

/-- C8: once `chatbot_manager` is set it is never replaced — the
assignment at lines 148-149 is guarded by the manager being falsy, so any
later run (any page, any inputs, any further embedding creation) leaves
the same manager instance in the session state. -/
theorem c8_manager_assignment_idempotent (stored : Option AppState) (inp : ScriptInput)
    (m : ChatbotManager) (h : (ensureState stored).chatbot_manager = some m) :
    (runScript stored inp).state.chatbot_manager = some m := by
  by_cases hch : inp.choice = "🤖 Chatbot"
  · rw [runScript_state_chatbot stored inp hch, chatCol_manager]
    have h1 : (stateAfterUpload stored inp).chatbot_manager = some m := by
      rw [stateAfterUpload_manager]
      exact h
    unfold stateAfterEmbeddings
    exact embCol_manager_mono _ _ _ _ h1
  · rw [(runScript_not_chatbot stored inp hch).1]
    exact h

/-- Witness for C8: a session whose stored state already holds manager
instance 7 keeps that exact instance after a full run that uploads a new
PDF and checks Create Embeddings again. -/
theorem c8_manager_assignment_idempotent_witness :
    (runScript (some sampleStoredState) sampleInput).state.chatbot_manager = some ⟨7⟩ :=
  c8_manager_assignment_idempotent (some sampleStoredState) sampleInput ⟨7⟩ rfl

/-- C9: `temp_pdf_path` is always either `none` or the fixed constant
`"doc.pdf"`: the invariant is preserved by every run, and every upload
writes the file to the hard-coded path `"doc.pdf"` and stores exactly
that path, so the stored path never distinguishes which document was
uploaded. -/
theorem c9_path_none_or_docpdf (stored : Option AppState) (inp : ScriptInput)
    (h : (ensureState stored).temp_pdf_path = none ∨
         (ensureState stored).temp_pdf_path = some "doc.pdf") :
    ((runScript stored inp).state.temp_pdf_path = none ∨
      (runScript stored inp).state.temp_pdf_path = some "doc.pdf") ∧
      ∀ (s : AppState) (f : UploadedFile),
        (uploadColumn s (some f)).state.temp_pdf_path = some "doc.pdf" ∧
          Output.fileWrite "doc.pdf" ∈ (uploadColumn s (some f)).outputs := by
  constructor
  · by_cases hch : inp.choice = "🤖 Chatbot"
    · rw [runScript_state_chatbot stored inp hch, chatCol_path]
      unfold stateAfterEmbeddings
      rw [embCol_path]
      rcases uploadColumn_path (ensureState stored) inp.uploaded_file with h' | h'
      · unfold stateAfterUpload
        rw [h']
        exact h
      · unfold stateAfterUpload
        rw [h']
        exact Or.inr rfl
    · rw [(runScript_not_chatbot stored inp hch).1]
      exact h
  · intro s f
    exact ⟨rfl, by simp [uploadColumn]⟩

/-- Witness for C9: starting a fresh session (path `none`) and running the
sample upload-and-chat interaction keeps the invariant. -/
theorem c9_path_none_or_docpdf_witness :
    ((runScript none sampleInput).state.temp_pdf_path = none ∨
      (runScript none sampleInput).state.temp_pdf_path = some "doc.pdf") ∧
      ∀ (s : AppState) (f : UploadedFile),
        (uploadColumn s (some f)).state.temp_pdf_path = some "doc.pdf" ∧
          Output.fileWrite "doc.pdf" ∈ (uploadColumn s (some f)).outputs :=
  c9_path_none_or_docpdf none sampleInput (Or.inl rfl)

/-- C2: every exception of the two manager calls is mapped to a displayed
message: on the embeddings side each raise (during manager init, during
`create_embeddings`, or during chatbot-manager init) renders exactly the
`st.error` message of its handler, with `FileNotFoundError`, `ValueError`
and `ConnectionError` displayed verbatim and any other exception wrapped
as an "unexpected error"; on the chat side a raise inside `get_response`
becomes the error-text answer that is appended as the assistant turn.
The model is total, so no exception propagates out of a run. -/
theorem c2_exceptions_mapped_to_messages :
    (∀ s path env e, env.embInit = Except.error e →
        (tryCreateEmbeddings s path env).outputs = [Output.errorMsg (excErrorText e)]) ∧
      (∀ s path env e, env.embInit = Except.ok () → env.embCreate = Except.error e →
        (tryCreateEmbeddings s path env).outputs = [Output.errorMsg (excErrorText e)]) ∧
      (∀ s path env e result, env.embInit = Except.ok () →
        env.embCreate = Except.ok result → s.chatbot_manager = none →
        env.botInit = Except.error e →
        (tryCreateEmbeddings s path env).outputs =
          [Output.successMsg result, Output.errorMsg (excErrorText e)]) ∧
      (∀ m, excErrorText (PyExc.fileNotFound m) = m) ∧
      (∀ m, excErrorText (PyExc.valueError m) = m) ∧
      (∀ m, excErrorText (PyExc.connectionError m) = m) ∧
      (∀ m, excErrorText (PyExc.otherExc m) = "An unexpected error occurred: " ++ m) ∧
      (∀ m, answerText (ChatOutcome.raised m) =
        "⚠️ An error occurred while processing your request: " ++ m) ∧
      (∀ s q m, s.chatbot_manager ≠ none → q.isEmpty = false →
        (chatColumn s (some q) (ChatOutcome.raised m)).state.messages =
          s.messages ++ [⟨"user", q⟩, ⟨"assistant", answerText (ChatOutcome.raised m)⟩]) := by
  refine ⟨?_, ?_, ?_, fun _ => rfl, fun _ => rfl, fun _ => rfl, fun _ => rfl, fun _ => rfl, ?_⟩
  · intro s path env e h
    simp [tryCreateEmbeddings, h]
  · intro s path env e h1 h2
    simp [tryCreateEmbeddings, h1, h2]
  · intro s path env e result h1 h2 h3 h4
    simp [tryCreateEmbeddings, h1, h2, h3, h4]
  · intro s q m hm hq
    exact (chatCol_send s q (ChatOutcome.raised m) hm hq).1

/-- C5: the session state has exactly the three fields path, manager and
messages (structure eta), and every run only appends to `messages`:
the old list is a prefix of the new one, and every appended element is a
record with exactly a `role` field that is `"user"` or `"assistant"` and a
`content` field. -/
theorem c5_state_shape_preserved (stored : Option AppState) (inp : ScriptInput) :
    (∀ s : AppState, s = ⟨s.temp_pdf_path, s.chatbot_manager, s.messages⟩) ∧
      ∃ tail, (runScript stored inp).state.messages = (ensureState stored).messages ++ tail ∧
        ∀ m ∈ tail, (m.role = "user" ∨ m.role = "assistant") ∧ m = ⟨m.role, m.content⟩ := by
  refine ⟨fun _ => rfl, ?_⟩
  by_cases hch : inp.choice = "🤖 Chatbot"
  · rw [runScript_state_chatbot stored inp hch]
    obtain ⟨tail, htail, hroles⟩ :=
      chatCol_messages_append (stateAfterEmbeddings stored inp) inp.user_input inp.chat_outcome
    refine ⟨tail, by rw [htail, stateAfterEmbeddings_messages], ?_⟩
    intro m hm
    rcases hroles with rfl | ⟨q, rfl⟩
    · cases hm
    · simp only [List.mem_cons, List.not_mem_nil, or_false] at hm
      rcases hm with rfl | rfl
      · exact ⟨Or.inl rfl, rfl⟩
      · exact ⟨Or.inr rfl, rfl⟩
  · exact ⟨[], by rw [(runScript_not_chatbot stored inp hch).1]; simp, by simp⟩

/-- C6: each of the three mutating UI actions touches a disjoint part of
the state — upload leaves manager and messages alone, embedding creation
leaves path and messages alone, message send leaves path and manager
alone and only appends to messages — and any non-Chatbot page leaves the
whole session state unchanged. -/
theorem c6_disjoint_mutations (stored : Option AppState) (inp : ScriptInput) :
    (∀ s u, (uploadColumn s u).state.chatbot_manager = s.chatbot_manager ∧
        (uploadColumn s u).state.messages = s.messages) ∧
      (∀ s b env, (embeddingsColumn s b env).state.temp_pdf_path = s.temp_pdf_path ∧
        (embeddingsColumn s b env).state.messages = s.messages) ∧
      (∀ s ui oc, (chatColumn s ui oc).state.temp_pdf_path = s.temp_pdf_path ∧
        (chatColumn s ui oc).state.chatbot_manager = s.chatbot_manager ∧
        ∃ tail, (chatColumn s ui oc).state.messages = s.messages ++ tail) ∧
      (inp.choice ≠ "🤖 Chatbot" → (runScript stored inp).state = ensureState stored) := by
  refine ⟨fun s u => ⟨uploadColumn_manager s u, uploadColumn_messages s u⟩,
    fun s b env => ⟨embCol_path s b env, embCol_messages s b env⟩,
    fun s ui oc => ⟨chatCol_path s ui oc, chatCol_manager s ui oc, ?_⟩,
    fun h => (runScript_not_chatbot stored inp h).1⟩
  obtain ⟨tail, htail, -⟩ := chatCol_messages_append s ui oc
  exact ⟨tail, htail⟩

/-- C10: a message send appends exactly two turns, first the user turn
with the typed input, then the assistant turn whose content is the
returned answer or, when `get_response` raises, the error text — so a
user turn is never recorded without a following assistant turn. -/
theorem c10_send_appends_user_then_assistant (stored : Option AppState) (inp : ScriptInput)
    (q : String) (hch : inp.choice = "🤖 Chatbot") (hui : inp.user_input = some q)
    (hq : q.isEmpty = false)
    (hm : (stateAfterEmbeddings stored inp).chatbot_manager ≠ none) :
    (runScript stored inp).state.messages =
      (ensureState stored).messages ++
        [⟨"user", q⟩, ⟨"assistant", answerText inp.chat_outcome⟩] := by
  rw [runScript_state_chatbot stored inp hch, hui,
    (chatCol_send _ q inp.chat_outcome hm hq).1, stateAfterEmbeddings_messages]

/-- Witness for C10: a stored session with an existing manager sends the
sample question; the log gains exactly the user turn and the assistant
turn. -/
theorem c10_send_appends_user_then_assistant_witness :
    (runScript (some sampleStoredState) sampleInput).state.messages =
      (ensureState (some sampleStoredState)).messages ++
        [⟨"user", "What is this about?"⟩,
         ⟨"assistant", answerText sampleInput.chat_outcome⟩] :=
  c10_send_appends_user_then_assistant (some sampleStoredState) sampleInput
    "What is this about?" rfl rfl rfl (by decide)

/-- C1: the script is a pure call-through layer: every
`create_embeddings` call receives exactly the path currently stored in
`temp_pdf_path`; when that call returns a result it is rendered via
`st.success`; every `get_response` call receives exactly the user's chat
input; when it returns an answer that answer is rendered as the assistant
chat message. -/
theorem c1_pure_call_through (stored : Option AppState) (inp : ScriptInput) :
    (∀ p, ManagerCall.createEmbeddings p ∈ (runScript stored inp).calls →
        (stateAfterUpload stored inp).temp_pdf_path = some p) ∧
      (∀ p result, ManagerCall.createEmbeddings p ∈ (runScript stored inp).calls →
        inp.embedEnv.embCreate = Except.ok result →
        Output.successMsg result ∈ (runScript stored inp).outputs) ∧
      (∀ q, ManagerCall.getResponse q ∈ (runScript stored inp).calls →
        inp.user_input = some q) ∧
      (∀ q a, ManagerCall.getResponse q ∈ (runScript stored inp).calls →
        inp.chat_outcome = ChatOutcome.ok a →
        Output.chatMsg "assistant" a ∈ (runScript stored inp).outputs) := by
  by_cases hch : inp.choice = "🤖 Chatbot"
  · have hc := runScript_calls_chatbot stored inp hch
    refine ⟨?_, ?_, ?_, ?_⟩
    · intro p hp
      rw [hc] at hp
      rcases List.mem_append.mp hp with h | h
      · obtain ⟨p', hp', hpath⟩ := embCol_calls_mem _ _ _ _ h
        injection hp' with h'
        rw [h']
        exact hpath
      · obtain ⟨q, hq, -, -, -⟩ := chatCol_calls_mem _ _ _ _ h
        simp at hq
    · intro p result hp hr
      rw [hc] at hp
      rcases List.mem_append.mp hp with h | h
      · exact mem_outputs_of_embCol stored inp hch _ (embCol_success _ _ _ _ _ h hr)
      · obtain ⟨q, hq, -, -, -⟩ := chatCol_calls_mem _ _ _ _ h
        simp at hq
    · intro q hq
      rw [hc] at hq
      rcases List.mem_append.mp hq with h | h
      · obtain ⟨p', hp', -⟩ := embCol_calls_mem _ _ _ _ h
        simp at hp'
      · obtain ⟨q', hq', hui, -, -⟩ := chatCol_calls_mem _ _ _ _ h
        injection hq' with h'
        rw [h']
        exact hui
    · intro q a hq hoc
      rw [hc] at hq
      rcases List.mem_append.mp hq with h | h
      · obtain ⟨p', hp', -⟩ := embCol_calls_mem _ _ _ _ h
        simp at hp'
      · obtain ⟨q', hq', hui, hm, hqe⟩ := chatCol_calls_mem _ _ _ _ h
        injection hq' with h'
        subst h'
        have ha : answerText inp.chat_outcome = a := by
          rw [hoc]
          rfl
        have hmem : Output.chatMsg "assistant" (answerText inp.chat_outcome) ∈
            (chatColumn (stateAfterEmbeddings stored inp)
              inp.user_input inp.chat_outcome).outputs := by
          rw [hui]
          exact (chatCol_send _ q inp.chat_outcome hm hqe).2.2.2
        rw [ha] at hmem
        exact mem_outputs_of_chatCol stored inp hch _ hmem
  · obtain ⟨-, hcalls⟩ := runScript_not_chatbot stored inp hch
    rw [hcalls]
    simp

/-- Witness for C1: in the sample run the embeddings call receives the
stored path `"doc.pdf"`, its result is rendered, the chat call receives
the typed question, and the returned answer is rendered. -/
theorem c1_pure_call_through_witness :
    (stateAfterUpload none sampleInput).temp_pdf_path = some "doc.pdf" ∧
      Output.successMsg "Embeddings created!" ∈ (runScript none sampleInput).outputs ∧
      sampleInput.user_input = some "What is this about?" ∧
      Output.chatMsg "assistant" "It describes a RAG pipeline." ∈
        (runScript none sampleInput).outputs := by
  have h := c1_pure_call_through none sampleInput
  exact ⟨h.1 "doc.pdf" (by decide),
    h.2.1 "doc.pdf" "Embeddings created!" (by decide) rfl,
    h.2.2.1 "What is this about?" (by decide),
    h.2.2.2 "What is this about?" "It describes a RAG pipeline." (by decide) rfl⟩

/-- C3: chat answers only after embeddings: `get_response` is only ever
called when the manager the chat column reads is non-`None` (otherwise the
info message is shown and no chat call happens); the manager becomes
non-`None` only through a run whose `create_embeddings` call succeeded,
which itself requires a stored upload path; and triggering embedding
creation without an upload renders the warning and makes no manager
call. -/
theorem c3_chat_gated_on_embeddings (stored : Option AppState) (inp : ScriptInput) :
    (∀ q, ManagerCall.getResponse q ∈ (runScript stored inp).calls →
        (stateAfterEmbeddings stored inp).chatbot_manager ≠ none) ∧
      (inp.choice = "🤖 Chatbot" →
        (stateAfterEmbeddings stored inp).chatbot_manager = none →
        Output.infoMsg "🤖 Please upload a PDF and create embeddings to start chatting." ∈
            (runScript stored inp).outputs ∧
          ∀ q, ManagerCall.getResponse q ∉ (runScript stored inp).calls) ∧
      ((ensureState stored).chatbot_manager = none →
        (runScript stored inp).state.chatbot_manager ≠ none →
        ∃ p result, (stateAfterUpload stored inp).temp_pdf_path = some p ∧
          inp.embedEnv.embCreate = Except.ok result ∧
          ManagerCall.createEmbeddings p ∈ (runScript stored inp).calls) ∧
      (inp.choice = "🤖 Chatbot" → inp.create_embeddings = true →
        (stateAfterUpload stored inp).temp_pdf_path = none →
        Output.warningMsg "⚠️ Please upload a PDF first." ∈ (runScript stored inp).outputs ∧
          ∀ p, ManagerCall.createEmbeddings p ∉ (runScript stored inp).calls) := by
  refine ⟨?_, ?_, ?_, ?_⟩
  · intro q hq
    by_cases hch : inp.choice = "🤖 Chatbot"
    · rw [runScript_calls_chatbot stored inp hch] at hq
      rcases List.mem_append.mp hq with h | h
      · obtain ⟨p', hp', -⟩ := embCol_calls_mem _ _ _ _ h
        simp at hp'
      · obtain ⟨q', -, -, hm, -⟩ := chatCol_calls_mem _ _ _ _ h
        exact hm
    · rw [(runScript_not_chatbot stored inp hch).2] at hq
      cases hq
  · intro hch hm
    obtain ⟨-, hinfo, hcalls0⟩ :=
      chatCol_info (stateAfterEmbeddings stored inp) inp.user_input inp.chat_outcome hm
    refine ⟨mem_outputs_of_chatCol stored inp hch _ hinfo, ?_⟩
    intro q hq
    rw [runScript_calls_chatbot stored inp hch] at hq
    rcases List.mem_append.mp hq with h | h
    · obtain ⟨p', hp', -⟩ := embCol_calls_mem _ _ _ _ h
      simp at hp'
    · rw [hcalls0] at h
      cases h
  · intro h0 h1
    by_cases hch : inp.choice = "🤖 Chatbot"
    · rw [runScript_state_chatbot stored inp hch, chatCol_manager] at h1
      rcases hsm : (stateAfterEmbeddings stored inp).chatbot_manager with _ | m
      · exact absurd hsm h1
      · have h0' : (stateAfterUpload stored inp).chatbot_manager = none := by
          rw [stateAfterUpload_manager]
          exact h0
        have hsm' : (embeddingsColumn (stateAfterUpload stored inp)
            inp.create_embeddings inp.embedEnv).state.chatbot_manager = some m := hsm
        obtain ⟨p, hp, ⟨result, hr⟩, -, hcall⟩ :=
          embCol_manager_new _ _ _ _ h0' hsm'
        refine ⟨p, result, hp, hr, ?_⟩
        rw [runScript_calls_chatbot stored inp hch]
        exact List.mem_append.mpr (Or.inl hcall)
    · rw [(runScript_not_chatbot stored inp hch).1] at h1
      exact absurd h0 h1
  · intro hch hcb hpath
    obtain ⟨hw, hc0⟩ := embCol_warning (stateAfterUpload stored inp) inp.embedEnv hpath
    have hw' : Output.warningMsg "⚠️ Please upload a PDF first." ∈
        (embeddingsColumn (stateAfterUpload stored inp)
          inp.create_embeddings inp.embedEnv).outputs := by
      rw [hcb]
      exact hw
    have hc0' : (embeddingsColumn (stateAfterUpload stored inp)
        inp.create_embeddings inp.embedEnv).calls = [] := by
      rw [hcb]
      exact hc0
    refine ⟨mem_outputs_of_embCol stored inp hch _ hw', ?_⟩
    intro p hp
    rw [runScript_calls_chatbot stored inp hch] at hp
    rcases List.mem_append.mp hp with h | h
    · rw [hc0'] at h
      cases h
    · obtain ⟨q', hq', -, -, -⟩ := chatCol_calls_mem _ _ _ _ h
      simp at hq'

/-- Witness for C3: in a fresh session the sample run ends with a
non-`None` manager, and indeed its `create_embeddings` call happened, on
the stored path, and succeeded. -/
theorem c3_chat_gated_on_embeddings_witness :
    ∃ p result, (stateAfterUpload none sampleInput).temp_pdf_path = some p ∧
      sampleInput.embedEnv.embCreate = Except.ok result ∧
      ManagerCall.createEmbeddings p ∈ (runScript none sampleInput).calls :=
  (c3_chat_gated_on_embeddings none sampleInput).2.2.1 rfl (by decide)

end PDFChat
